import Mathlib

/-!
Verification development for the bitcoin-network-tools repository
(bitcoin_network_tools/bitnodes_api.py). The file shallowly embeds the
request-construction and validation layer of the BitnodesAPI class:

* Python values and exceptions are modelled by the inductives PyVal and
  PyError; a raising method becomes a function into Except PyError.
* The HTTP transport (requests.get) is an external collaborator: each
  endpoint method takes a function from GetRequest to HttpResponse and
  additionally returns the list of requests it issued, so that theorems can
  speak about which network calls happen.  HttpResponse.body stands for the
  decoded JSON payload (response.json is modelled as returning it).
* The DNS transport (dns.resolver) is likewise a pair of functions from
  DnsQuery to answers; a DnsQuery carries the resolver timeout/lifetime
  configuration in force at the moment resolve is called (none means the
  value was left at the dns library default, i.e. this code never assigned
  resolver.timeout / resolver.lifetime before querying).
* Clock reads (time.time() scaled to microseconds) become an explicit Nat
  parameter clock_us.
* HMAC-SHA256 and UTF-8 encoding are implemented concretely below over
  List Nat byte strings (each byte kept below 256 by construction), so the
  signature computed by the embedded _generate_auth_headers is the real one.
* Python str is modelled by Lean String; indexing helpers (pyLastChar for
  s[-1], pyDropLastChar for s[:-1]) act on the code-point list, matching
  Python string semantics.  Quote characters are elided from error-message
  literals.
-/

/-- Python runtime values, as far as the isinstance / truthiness checks of
set_public_api_key need them. -/
inductive PyVal where
  | vStr (s : String)
  | vInt (n : Int)
  | vNone
deriving DecidableEq

/-- Python truthiness: empty string, zero and None are falsy. -/
def pyFalsy : PyVal → Bool
  | .vStr s => s.isEmpty
  | .vInt n => n = 0
  | .vNone => true

/-- isinstance(x, str). -/
def pyIsStr : PyVal → Bool
  | .vStr _ => true
  | _ => false

/-- The String carried by a PyVal, if it is one. -/
def pyStrOf : PyVal → Option String
  | .vStr s => some s
  | _ => none

/-- The exceptions raised by bitnodes_api.py: ValueError from the validators,
requests.HTTPError from raise_for_status, dns.exception.DNSException from the
resolver, RuntimeError from the wrapping in get_dns_seeder and
_get_private_key, FileNotFoundError from _set_private_key_path. -/
inductive PyError where
  | valueError (msg : String)
  | httpError (status : Nat)
  | dnsException (msg : String)
  | runtimeError (msg : String)
  | fileNotFoundError (msg : String)
deriving DecidableEq

deriving instance DecidableEq for Except

/-- Python s[-1] on a possibly empty string (None standing for the IndexError
case, which the source never reaches because it just appended a character). -/
def pyLastChar (s : String) : Option Char := s.data.getLast?

/-- Python s[:-1]. -/
def pyDropLastChar (s : String) : String := ⟨s.data.dropLast⟩

/-- Python str.isdigit restricted to ASCII digits: non-empty and all digits. -/
def pyIsDigit (s : String) : Bool := !s.data.isEmpty && s.data.all Char.isDigit

/-- Python str.lower, letter by letter (ASCII case mapping, which is all the
record and field comparisons of the source need). -/
def pyLower (s : String) : String := ⟨s.data.map Char.toLower⟩

/-- Whether pat occurs at the start of hay (over code points). -/
def listIsPrefixOf : List Char → List Char → Bool
  | [], _ => true
  | _ :: _, [] => false
  | a :: as, b :: bs => a = b && listIsPrefixOf as bs

/-- Python substring containment: pat in hay. -/
def containsSubList (pat : List Char) : List Char → Bool
  | [] => listIsPrefixOf pat []
  | c :: rest => listIsPrefixOf pat (c :: rest) || containsSubList pat rest

/-- Numeric denotation of a decimal-digit string (used to state monotonicity
of the decimal nonce strings). -/
def decimalValue (s : String) : Nat :=
  s.data.foldl (fun a c => 10 * a + (c.toNat - 48)) 0

/-! ## SHA-256 and HMAC-SHA256 over byte lists (bytes are Nat below 256) -/

/-- Truncation to a 32-bit word. -/
def w32 (n : Nat) : Nat := n % 4294967296

/-- Rotation of a 32-bit word to the right by n places. -/
def rotr32 (x n : Nat) : Nat := w32 ((x >>> n) ||| (x <<< (32 - n)))

def sigmaBig0 (x : Nat) : Nat := rotr32 x 2 ^^^ rotr32 x 13 ^^^ rotr32 x 22

def sigmaBig1 (x : Nat) : Nat := rotr32 x 6 ^^^ rotr32 x 11 ^^^ rotr32 x 25

def sigmaSmall0 (x : Nat) : Nat := rotr32 x 7 ^^^ rotr32 x 18 ^^^ (x >>> 3)

def sigmaSmall1 (x : Nat) : Nat := rotr32 x 17 ^^^ rotr32 x 19 ^^^ (x >>> 10)

def chFn (x y z : Nat) : Nat := (x &&& y) ^^^ ((x ^^^ 4294967295) &&& z)

def majFn (x y z : Nat) : Nat := (x &&& y) ^^^ (x &&& z) ^^^ (y &&& z)

/-- The sixty-four SHA-256 round constants (FIPS 180-4), in decimal. -/
def sha256K : List Nat :=
  [1116352408, 1899447441, 3049323471, 3921009573, 961987163, 1508970993,
   2453635748, 2870763221, 3624381080, 310598401, 607225278, 1426881987,
   1925078388, 2162078206, 2614888103, 3248222580, 3835390401, 4022224774,
   264347078, 604807628, 770255983, 1249150122, 1555081692, 1996064986,
   2554220882, 2821834349, 2952996808, 3210313671, 3336571891, 3584528711,
   113926993, 338241895, 666307205, 773529912, 1294757372, 1396182291,
   1695183700, 1986661051, 2177026350, 2456956037, 2730485921, 2820302411,
   3259730800, 3345764771, 3516065817, 3600352804, 4094571909, 275423344,
   430227734, 506948616, 659060556, 883997877, 958139571, 1322822218,
   1537002063, 1747873779, 1955562222, 2024104815, 2227730452, 2361852424,
   2428436474, 2756734187, 3204031479, 3329325298]

/-- The eight SHA-256 initial hash words (FIPS 180-4), in decimal. -/
def sha256H0 : List Nat :=
  [1779033703, 3144134277, 1013904242, 2773480762,
   1359893119, 2600822924, 528734635, 1541459225]

/-- Big-endian byte rendering of n on k bytes. -/
def beBytes (k n : Nat) : List Nat :=
  (List.range k).map fun i => (n >>> (8 * (k - 1 - i))) % 256

/-- SHA-256 padding: 0x80, zeros to 56 mod 64, then the bit length on 8 bytes. -/
def sha256Pad (msg : List Nat) : List Nat :=
  let l := msg.length
  msg ++ [128] ++ List.replicate ((119 - l % 64) % 64) 0 ++ beBytes 8 (8 * l)

/-- The sixteen big-endian 32-bit words of one 64-byte block. -/
def blockWords (blockBytes : List Nat) : List Nat :=
  (List.range 16).map fun i =>
    blockBytes.getD (4 * i) 0 * 16777216 + blockBytes.getD (4 * i + 1) 0 * 65536 +
      blockBytes.getD (4 * i + 2) 0 * 256 + blockBytes.getD (4 * i + 3) 0

/-- Message-schedule extension of the sixteen block words to sixty-four. -/
def sha256Schedule (ws : List Nat) : Array Nat :=
  (List.range 48).foldl
    (fun arr _ =>
      let n := arr.size
      arr.push (w32 (sigmaSmall1 (arr.getD (n - 2) 0) + arr.getD (n - 7) 0 +
        sigmaSmall0 (arr.getD (n - 15) 0) + arr.getD (n - 16) 0)))
    ws.toArray

/-- The eight working registers of the compression function. -/
structure Sha256Regs where
  ra : Nat
  rb : Nat
  rc : Nat
  rd : Nat
  re : Nat
  rf : Nat
  rg : Nat
  rh : Nat

/-- One compression round, consuming a (round constant, schedule word) pair. -/
def sha256Round (st : Sha256Regs) (kw : Nat × Nat) : Sha256Regs :=
  let t1 := w32 (st.rh + sigmaBig1 st.re + chFn st.re st.rf st.rg + kw.1 + kw.2)
  let t2 := w32 (sigmaBig0 st.ra + majFn st.ra st.rb st.rc)
  ⟨w32 (t1 + t2), st.ra, st.rb, st.rc, w32 (st.rd + t1), st.re, st.rf, st.rg⟩

/-- Compression of one 64-byte block into the running hash state. -/
def sha256Compress (hs : List Nat) (blockBytes : List Nat) : List Nat :=
  let ws := sha256Schedule (blockWords blockBytes)
  let init : Sha256Regs :=
    ⟨hs.getD 0 0, hs.getD 1 0, hs.getD 2 0, hs.getD 3 0,
     hs.getD 4 0, hs.getD 5 0, hs.getD 6 0, hs.getD 7 0⟩
  let fin := (sha256K.zip ws.toList).foldl sha256Round init
  [w32 (hs.getD 0 0 + fin.ra), w32 (hs.getD 1 0 + fin.rb),
   w32 (hs.getD 2 0 + fin.rc), w32 (hs.getD 3 0 + fin.rd),
   w32 (hs.getD 4 0 + fin.re), w32 (hs.getD 5 0 + fin.rf),
   w32 (hs.getD 6 0 + fin.rg), w32 (hs.getD 7 0 + fin.rh)]

/-- SHA-256 of a byte string, as 32 bytes. -/
def sha256 (msg : List Nat) : List Nat :=
  let padded := sha256Pad msg
  let final := (List.range (padded.length / 64)).foldl
    (fun hs i => sha256Compress hs ((padded.drop (64 * i)).take 64))
    sha256H0
  final.flatMap (beBytes 4)

/-- HMAC-SHA256 (RFC 2104) with a 64-byte block size, as hashlib/hmac use it. -/
def hmacSha256 (key msg : List Nat) : List Nat :=
  let k0 := if 64 < key.length then sha256 key else key
  let kBlock := k0 ++ List.replicate (64 - k0.length) 0
  let ipadKey := kBlock.map fun b => b ^^^ 54
  let opadKey := kBlock.map fun b => b ^^^ 92
  sha256 (opadKey ++ sha256 (ipadKey ++ msg))

/-- Lowercase hexadecimal digit. -/
def hexDigitChar (n : Nat) : Char :=
  if n < 10 then Char.ofNat (48 + n) else Char.ofNat (87 + n)

/-- Lowercase hex rendering of a byte string (Python hexdigest). -/
def hexOfBytes (bs : List Nat) : String :=
  ⟨bs.flatMap fun b => [hexDigitChar (b / 16), hexDigitChar (b % 16)]⟩

/-- UTF-8 encoding of one code point. -/
def utf8EncodeChar (c : Char) : List Nat :=
  let n := c.toNat
  if n < 128 then [n]
  else if n < 2048 then [192 + n / 64, 128 + n % 64]
  else if n < 65536 then [224 + n / 4096, 128 + (n / 64) % 64, 128 + n % 64]
  else [240 + n / 262144, 128 + (n / 4096) % 64, 128 + (n / 64) % 64, 128 + n % 64]

/-- Python str.encode (UTF-8 bytes of a string). -/
def utf8Bytes (s : String) : List Nat := s.data.flatMap utf8EncodeChar

/-! ## The AuthSigner (bitnodes_api.py lines 113 to 134) -/

/-- The authentication header triple returned by _generate_auth_headers. -/
structure AuthHeaders where
  pubkey : String
  nonce : String
  sig : String
deriving DecidableEq

/-- Embedding of BitnodesAPI._generate_auth_headers (lines 113 to 134).  The
method reads self public key and the ephemeral private key; both are explicit
arguments here, and the clock read time.time() * 1_000_000 truncated to int is
the explicit argument clock_us. -/
def _generate_auth_headers (public_api_key private_key uri : String)
    (clock_us : Nat) : AuthHeaders :=
  let nonce := toString clock_us
  let message := utf8Bytes (public_api_key ++ ":" ++ nonce ++ ":" ++ uri)
  let sig := hexOfBytes (hmacSha256 (utf8Bytes private_key) message)
  { pubkey := public_api_key, nonce := nonce, sig := "HMAC_SHA256:" ++ sig }

/-! ## HTTP transport model and client state -/

/-- A GET request as issued by the client: the URL and the authentication
headers attached to it (none when requests.get is called with the URL only,
which is what every endpoint method of the source does). -/
structure GetRequest where
  url : String
  authHeaders : Option AuthHeaders
deriving DecidableEq

/-- An HTTP response: status code and decoded JSON body (kept opaque). -/
structure HttpResponse where
  status : Nat
  body : String
deriving DecidableEq

/-- requests.Response.raise_for_status: raises HTTPError exactly for status
codes in 400..599 (4xx client errors and 5xx server errors). -/
def raise_for_status (response : HttpResponse) : Except PyError Unit :=
  if 400 ≤ response.status ∧ response.status < 600 then
    .error (.httpError response.status)
  else .ok ()

/-- Fixed API root (self.__base_url). -/
def base_url : String := "https://bitnodes.io/api/v1/"

/-- The credential-relevant state of a BitnodesAPI instance: the stored public
key and whether a private key source (env value or readable file) is
available.  Both are optional; __init__ may leave them unset. -/
structure BitnodesState where
  public_api_key : Option String
  private_key_source : Option String
deriving DecidableEq

/-- Embedding of BitnodesAPI.set_public_api_key (lines 47 to 64).  Python
sequencing: the ValueError is raised before the assignment, so on the error
path the returned state is the unchanged input state. -/
def set_public_api_key (st : BitnodesState) (public_api_key : PyVal) :
    Except PyError Bool × BitnodesState :=
  if pyFalsy public_api_key || !pyIsStr public_api_key then
    (.error (.valueError "Public API key must be a non-empty string."), st)
  else
    (.ok true, { st with public_api_key := pyStrOf public_api_key })

/-- Embedding of BitnodesAPI.get_public_api_key (lines 66 to 75). -/
def get_public_api_key (st : BitnodesState) : Option String :=
  st.public_api_key

/-! ## Validators (bitnodes_api.py lines 137 to 170) -/

/-- Embedding of _validate_pagination (lines 137 to 153) for int-typed
arguments: the isinstance branches cannot fire, the limit bound check can. -/
def _validate_pagination (page limit : Option Int) : Except PyError Unit :=
  match limit with
  | none => .ok ()
  | some l =>
    if 1 ≤ l ∧ l ≤ 100 then .ok ()
    else .error (.valueError "Limit must be an integer between 1 and 100.")

/-- Embedding of _validate_address_port (lines 155 to 170) for a str address
and an int port: address must be non-empty, port in 1..65535. -/
def _validate_address_port (address : String) (port : Int) : Except PyError Unit :=
  if address = "" then
    .error (.valueError "Address must be a non-empty string.")
  else if 1 ≤ port ∧ port ≤ 65535 then .ok ()
  else .error (.valueError "Port must be an integer between 1 and 65535.")

/-! ## QueryBuilder (bitnodes_api.py lines 172 to 195) -/

/-- Embedding of _add_optional_params (lines 172 to 195).  The ordered dict
becomes an association list; values were already rendered by the f-string.
The source appends a question mark when the dict is non-empty, then k=v&
for every non-None value, then strips a trailing ampersand if one is there. -/
def _add_optional_params (og_url_str : String)
    (optional_params : List (String × Option String)) : String :=
  if optional_params.isEmpty then og_url_str
  else
    let s := optional_params.foldl
      (fun acc kv =>
        match kv.2 with
        | some value => acc ++ kv.1 ++ "=" ++ value ++ "&"
        | none => acc)
      (og_url_str ++ "?")
    if pyLastChar s = some '&' then pyDropLastChar s else s

/-! ## Endpoint methods.  Each takes the instance state and the HTTP
transport, and returns (result, list of GET requests issued). -/

/-- Embedding of get_snapshots (lines 197 to 230).  Note the source returns
response.json() without calling raise_for_status. -/
def get_snapshots (st : BitnodesState) (http : GetRequest → HttpResponse)
    (page limit : Option Int) : Except PyError String × List GetRequest :=
  match _validate_pagination page limit with
  | .error e => (.error e, [])
  | .ok _ =>
    let url := base_url ++ "snapshots/"
    let url := _add_optional_params url
      [("page", page.map toString), ("limit", limit.map toString)]
    let request : GetRequest := { url := url, authHeaders := none }
    let response := http request
    (.ok response.body, [request])

/-- The field validation of get_nodes_list (lines 269 to 274). -/
def fieldInvalid : Option String → Bool
  | some f => decide (pyLower f ∉ (["coordinates", "user_agents"] : List String))
  | none => false

/-- Embedding of get_nodes_list (lines 232 to 289). -/
def get_nodes_list (st : BitnodesState) (http : GetRequest → HttpResponse)
    (timestamp : String) (field : Option String) :
    Except PyError String × List GetRequest :=
  if fieldInvalid field then
    (.error (.valueError "Field must be either coordinates or user_agents."), [])
  else if timestamp ≠ "latest" ∧ pyIsDigit timestamp = false then
    (.error (.valueError "Timestamp must be a string representation of integer or latest."), [])
  else
    let url := base_url ++ "snapshots/" ++ timestamp ++ "/"
    let url :=
      if timestamp ≠ "latest" ∨ field ≠ none then
        _add_optional_params url
          ((if timestamp ≠ "latest" then [("timestamp", some timestamp)] else []) ++
            (match field with
             | some f => [("field", some f)]
             | none => []))
      else url
    let request : GetRequest := { url := url, authHeaders := none }
    let response := http request
    match raise_for_status response with
    | .error e => (.error e, [request])
    | .ok _ => (.ok response.body, [request])

/-- Embedding of get_address_list (lines 291 to 327) for a well-typed q (the
isinstance checks on q cannot fire for a list of strings).  Note the source
spells the path segment addreses with a single s. -/
def get_address_list (st : BitnodesState) (http : GetRequest → HttpResponse)
    (page limit : Option Int) (q : Option (List String)) :
    Except PyError String × List GetRequest :=
  match _validate_pagination page limit with
  | .error e => (.error e, [])
  | .ok _ =>
    let qJoined := q.map (String.intercalate ",")
    let url := base_url ++ "addreses/"
    let url := _add_optional_params url
      [("page", page.map toString), ("limit", limit.map toString), ("q", qJoined)]
    let request : GetRequest := { url := url, authHeaders := none }
    let response := http request
    match raise_for_status response with
    | .error e => (.error e, [request])
    | .ok _ => (.ok response.body, [request])

/-- Embedding of get_node_status (lines 329 to 368). -/
def get_node_status (st : BitnodesState) (http : GetRequest → HttpResponse)
    (address : String) (port : Int) : Except PyError String × List GetRequest :=
  match _validate_address_port address port with
  | .error e => (.error e, [])
  | .ok _ =>
    let url := base_url ++ "nodes/" ++ address ++ "-" ++ toString port ++ "/"
    let request : GetRequest := { url := url, authHeaders := none }
    let response := http request
    match raise_for_status response with
    | .error e => (.error e, [request])
    | .ok _ => (.ok response.body, [request])

/-- Embedding of get_node_latency (lines 370 to 400). -/
def get_node_latency (st : BitnodesState) (http : GetRequest → HttpResponse)
    (address : String) (port : Int) : Except PyError String × List GetRequest :=
  match _validate_address_port address port with
  | .error e => (.error e, [])
  | .ok _ =>
    let url := base_url ++ "nodes/" ++ address ++ "-" ++ toString port ++ "/latency/"
    let request : GetRequest := { url := url, authHeaders := none }
    let response := http request
    match raise_for_status response with
    | .error e => (.error e, [request])
    | .ok _ => (.ok response.body, [request])

/-- Embedding of get_leaderboard (lines 402 to 449). -/
def get_leaderboard (st : BitnodesState) (http : GetRequest → HttpResponse)
    (page limit : Option Int) : Except PyError String × List GetRequest :=
  match _validate_pagination page limit with
  | .error e => (.error e, [])
  | .ok _ =>
    let url := base_url ++ "leaderboard/"
    let url := _add_optional_params url
      [("page", page.map toString), ("limit", limit.map toString)]
    let request : GetRequest := { url := url, authHeaders := none }
    let response := http request
    match raise_for_status response with
    | .error e => (.error e, [request])
    | .ok _ => (.ok response.body, [request])

/-- Embedding of get_node_ranking (lines 451 to 493). -/
def get_node_ranking (st : BitnodesState) (http : GetRequest → HttpResponse)
    (address : String) (port : Int) : Except PyError String × List GetRequest :=
  match _validate_address_port address port with
  | .error e => (.error e, [])
  | .ok _ =>
    let url := base_url ++ "nodes/leaderboard/" ++ address ++ "-" ++ toString port ++ "/"
    let request : GetRequest := { url := url, authHeaders := none }
    let response := http request
    match raise_for_status response with
    | .error e => (.error e, [request])
    | .ok _ => (.ok response.body, [request])

/-- Embedding of get_data_propagation_list (lines 495 to 526). -/
def get_data_propagation_list (st : BitnodesState) (http : GetRequest → HttpResponse)
    (page limit : Option Int) : Except PyError String × List GetRequest :=
  match _validate_pagination page limit with
  | .error e => (.error e, [])
  | .ok _ =>
    let url := base_url ++ "data-propagation/"
    let url := _add_optional_params url
      [("page", page.map toString), ("limit", limit.map toString)]
    let request : GetRequest := { url := url, authHeaders := none }
    let response := http request
    match raise_for_status response with
    | .error e => (.error e, [request])
    | .ok _ => (.ok response.body, [request])

/-- Embedding of get_data_propagation (lines 528 to 563) for a str inv_hash:
the truthiness check rejects exactly the empty string. -/
def get_data_propagation (st : BitnodesState) (http : GetRequest → HttpResponse)
    (inv_hash : String) : Except PyError String × List GetRequest :=
  if inv_hash = "" then
    (.error (.valueError "Inventory hash must be a non-empty string."), [])
  else
    let url := base_url ++ "inv/" ++ inv_hash ++ "/"
    let request : GetRequest := { url := url, authHeaders := none }
    let response := http request
    match raise_for_status response with
    | .error e => (.error e, [request])
    | .ok _ => (.ok response.body, [request])

/-! ## The DNS seeder (bitnodes_api.py lines 565 to 653) -/

/-- One TXT answer record: its already-decoded string segments (the strings
attribute, with the byte-to-str decode applied at the model boundary). -/
structure TxtRecord where
  strings : List String
deriving DecidableEq

/-- A DNS resolution as issued: domain, record type, and the resolver timeout
and lifetime configuration in force at that moment (none = this code left the
field at the dns library default). -/
structure DnsQuery where
  domain : String
  rdtype : String
  resolverTimeout : Option Int
  resolverLifetime : Option Int
deriving DecidableEq

/-- The onion-marker test of the TXT comprehension: ".onion" in segment. -/
def hasOnionMarker (s : String) : Bool := containsSubList ".onion".data s.data

/-- The TXT list comprehension of get_dns_seeder (lines 636 to 641): loop over
records, loop over segments, keep a segment when it contains the marker. -/
def onionAddresses (txt_records : List TxtRecord) : List String :=
  txt_records.foldl
    (fun acc txt_record =>
      txt_record.strings.foldl
        (fun acc2 txt_string =>
          if hasOnionMarker txt_string then acc2 ++ [txt_string] else acc2)
        acc)
    []

/-- Embedding of get_dns_seeder (lines 565 to 653).  The two transport
functions stand for resolver.resolve for address records (whose answers are
rendered by str at the boundary) and for TXT records; a transport error is a
dns.exception.DNSException, which the except clause wraps into RuntimeError.
The record membership check happens before any resolver interaction; the
timeout/lifetime bound checks happen only in the TXT branch, and only the TXT
branch assigns resolver.timeout and resolver.lifetime.  ValueError raised in
the try block passes the except clause untouched (it only catches
DNSException).  The final branch is reached only with record aaaa thanks to
the membership check (Python would fall through to an implicit None there). -/
def get_dns_seeder
    (resolveAddr : DnsQuery → Except String (List String))
    (resolveTxt : DnsQuery → Except String (List TxtRecord))
    (record : String) (pre : Option String)
    (resolver_timeout resolver_lifetime : Int) :
    Except PyError (List String) × List DnsQuery :=
  if pyLower record ∉ (["a", "aaaa", "txt"] : List String) then
    (.error (.valueError "Record must be one of a, aaaa, txt."), [])
  else
    let domain :=
      match pre with
      | some p => if p.isEmpty then "seed.bitnodes.io" else p ++ ".seed.bitnodes.io"
      | none => "seed.bitnodes.io"
    if pyLower record = "txt" then
      if resolver_timeout < 1 then
        (.error (.valueError "Resolver timeout must be at least 1 second."), [])
      else if resolver_lifetime < 1 then
        (.error (.valueError "Resolver lifetime must be at least 1 second."), [])
      else
        let q : DnsQuery := ⟨domain, "TXT", some resolver_timeout, some resolver_lifetime⟩
        match resolveTxt q with
        | .error e => (.error (.runtimeError ("An error occurred while querying DNS: " ++ e)), [q])
        | .ok txt_records => (.ok (onionAddresses txt_records), [q])
    else if pyLower record = "a" then
      let q : DnsQuery := ⟨domain, "A", none, none⟩
      match resolveAddr q with
      | .error e => (.error (.runtimeError ("An error occurred while querying DNS: " ++ e)), [q])
      | .ok a_records => (.ok a_records, [q])
    else
      let q : DnsQuery := ⟨domain, "AAAA", none, none⟩
      match resolveAddr q with
      | .error e => (.error (.runtimeError ("An error occurred while querying DNS: " ++ e)), [q])
      | .ok aaaa_records => (.ok aaaa_records, [q])

/-! ## Spec-side definitions, written from the words of the specification and
compared with the code-side embeddings above. -/

/-- Modelled from the spec (section 4.2): the entries whose value is non-null,
rendered k=v, in insertion order. -/
def nonNullParams (ps : List (String × Option String)) : List String :=
  ps.filterMap fun kv => kv.2.map fun v => kv.1 ++ "=" ++ v

/-- Modelled from the spec (section 4.2): joined with an ampersand, with no
trailing separator. -/
def joinParams : List String → String
  | [] => ""
  | [q] => q
  | q :: q2 :: qs => q ++ "&" ++ joinParams (q2 :: qs)

/-- Every element followed by an ampersand, concatenated (the shape the
append loop of _add_optional_params produces before the final strip). -/
def ampConcat : List String → String
  | [] => ""
  | q :: qs => q ++ "&" ++ ampConcat qs

/-- Modelled from the spec (sections 4.5 and 7): the outcome of one HTTP GET
under the raise-on-4xx/5xx discipline of raise_for_status followed by JSON
decoding. -/
def expectedHttpResult (resp : HttpResponse) : Except PyError String :=
  if 400 ≤ resp.status ∧ resp.status < 600 then .error (.httpError resp.status)
  else .ok resp.body

/-! ## Helper lemmas -/

set_option maxRecDepth 8000

/-- Sanity vector for the HMAC-SHA256 implementation (RFC 4231 test case 2). -/
theorem hmacSha256_rfc4231_case2 :
    hexOfBytes (hmacSha256 (utf8Bytes "Jefe") (utf8Bytes "what do ya want for nothing?")) =
      "5bdcc146bf60754e6a042426089575c75a003f089d2739839dec58b964ec3843" := by
  decide

/-- The append loop of _add_optional_params produces the non-null entries,
each followed by an ampersand, after the initial string. -/
theorem addParams_foldl_eq (ps : List (String × Option String)) (init : String) :
    ps.foldl
      (fun acc kv =>
        match kv.2 with
        | some value => acc ++ kv.1 ++ "=" ++ value ++ "&"
        | none => acc)
      init = init ++ ampConcat (nonNullParams ps) := by
  induction ps generalizing init with
  | nil => simp [nonNullParams, ampConcat]
  | cons kv rest ih =>
    obtain ⟨k, v⟩ := kv
    cases v with
    | none =>
      show rest.foldl _ init = init ++ ampConcat (nonNullParams ((k, none) :: rest))
      rw [ih]
      simp [nonNullParams]
    | some s =>
      show rest.foldl _ (init ++ k ++ "=" ++ s ++ "&") =
        init ++ ampConcat (nonNullParams ((k, some s) :: rest))
      rw [ih]
      simp [nonNullParams, ampConcat, String.append_assoc]

/-- A non-empty ampersand-terminated concatenation ends in an ampersand. -/
theorem ampConcat_data_getLast? : ∀ (qs : List String) (q : String),
    (ampConcat (q :: qs)).data.getLast? = some '&' := by
  intro qs
  induction qs with
  | nil =>
    intro q
    show ((q ++ "&") ++ ampConcat []).data.getLast? = some '&'
    simp [ampConcat, String.append_empty, String.data_append, List.getLast?_append]
  | cons q2 qs ih =>
    intro q
    show ((q ++ "&") ++ ampConcat (q2 :: qs)).data.getLast? = some '&'
    rw [String.data_append, List.getLast?_append, ih q2]
    rfl

/-- A non-empty ampersand-terminated concatenation is a non-empty string. -/
theorem ampConcat_data_ne_nil (q : String) (qs : List String) :
    (ampConcat (q :: qs)).data ≠ [] := by
  intro h
  have hl := ampConcat_data_getLast? qs q
  rw [h] at hl
  simp at hl

/-- Dropping the final ampersand of the loop output yields the
ampersand-joined rendering with no trailing separator. -/
theorem ampConcat_dropLast : ∀ (qs : List String) (q : String),
    (ampConcat (q :: qs)).data.dropLast = (joinParams (q :: qs)).data := by
  intro qs
  induction qs with
  | nil =>
    intro q
    show ((q ++ "&") ++ ampConcat []).data.dropLast = (joinParams [q]).data
    simp [ampConcat, joinParams, String.append_empty, String.data_append,
      List.dropLast_concat]
  | cons q2 qs ih =>
    intro q
    show ((q ++ "&") ++ ampConcat (q2 :: qs)).data.dropLast = (joinParams (q :: q2 :: qs)).data
    rw [String.data_append, List.dropLast_append]
    have hne := ampConcat_data_ne_nil q2 qs
    simp only [List.isEmpty_iff, if_neg hne, ih q2]
    simp [joinParams, String.data_append, List.append_assoc]

/-- Accumulating loop with conditional append equals filter. -/
theorem foldl_append_filter (p : String → Bool) : ∀ (l acc : List String),
    l.foldl (fun a s => if p s then a ++ [s] else a) acc = acc ++ l.filter p := by
  intro l
  induction l with
  | nil => intro acc; simp
  | cons s rest ih =>
    intro acc
    show rest.foldl _ (if p s then acc ++ [s] else acc) = acc ++ (s :: rest).filter p
    rw [ih]
    cases hp : p s <;> simp [List.filter_cons, hp]

/-- The nested comprehension of the TXT branch keeps, in order, exactly the
segments that contain the onion marker. -/
theorem onionAddresses_eq_filter (txt_records : List TxtRecord) :
    onionAddresses txt_records =
      ((txt_records.map TxtRecord.strings).flatten).filter hasOnionMarker := by
  suffices h : ∀ (recs : List TxtRecord) (acc : List String),
      recs.foldl
        (fun acc r =>
          r.strings.foldl (fun a s => if hasOnionMarker s then a ++ [s] else a) acc)
        acc = acc ++ ((recs.map TxtRecord.strings).flatten).filter hasOnionMarker by
    simpa [onionAddresses] using h txt_records []
  intro recs
  induction recs with
  | nil => intro acc; simp
  | cons r rest ih =>
    intro acc
    show rest.foldl _ (r.strings.foldl _ acc) = _
    rw [foldl_append_filter, ih]
    simp [List.filter_append, List.append_assoc]

/-! ## Claim C3 -/

/-- Claim C3 counterexample: a non-empty mapping whose values are all null
does not leave the base path unchanged — _add_optional_params appends the
question mark before scanning the values and never removes it, so the result
is "base/?" rather than "base/". -/
theorem appendParams_all_null_counterexample :
    _add_optional_params "base/" [("page", (none : Option String))] = "base/?" ∧
    _add_optional_params "base/" [("page", (none : Option String))] ≠ "base/" := by
  constructor
  · decide
  · decide

/-- Claim C3 (amended): _add_optional_params appends a question mark followed
by exactly the non-null entries k=v in insertion order joined by ampersands
with no trailing separator; the base path is returned unchanged exactly when
the mapping itself is empty, while a non-empty mapping with only null values
yields the base path with a dangling question mark appended. -/
theorem appendParams_characterization (basePath : String)
    (ps : List (String × Option String)) :
    (ps = [] → _add_optional_params basePath ps = basePath) ∧
    (ps ≠ [] → nonNullParams ps = [] →
      _add_optional_params basePath ps = basePath ++ "?") ∧
    (nonNullParams ps ≠ [] →
      _add_optional_params basePath ps = basePath ++ "?" ++ joinParams (nonNullParams ps)) := by
  refine ⟨?_, ?_, ?_⟩
  · intro h
    subst h
    rfl
  · intro hne hnil
    cases ps with
    | nil => exact absurd rfl hne
    | cons kv rest =>
      simp only [_add_optional_params, List.isEmpty_cons, Bool.false_eq_true, if_false]
      rw [addParams_foldl_eq, hnil]
      have h1 : pyLastChar ((basePath ++ "?") ++ ampConcat []) = some '?' := by
        simp [ampConcat, pyLastChar, String.append_empty, String.data_append,
          List.getLast?_append]
      rw [if_neg (by simp [h1])]
      simp [ampConcat, String.append_empty]
  · intro hnn
    have hps : ps ≠ [] := by
      intro h
      rw [h] at hnn
      exact hnn rfl
    cases ps with
    | nil => exact absurd rfl hps
    | cons kv rest =>
      simp only [_add_optional_params, List.isEmpty_cons, Bool.false_eq_true, if_false]
      rw [addParams_foldl_eq]
      rcases hq : nonNullParams (kv :: rest) with _ | ⟨q, qs⟩
      · exact absurd hq hnn
      · have hlast : pyLastChar ((basePath ++ "?") ++ ampConcat (q :: qs)) = some '&' := by
          show ((basePath ++ "?") ++ ampConcat (q :: qs)).data.getLast? = some '&'
          rw [String.data_append, List.getLast?_append, ampConcat_data_getLast? qs q]
          rfl
        rw [if_pos hlast]
        apply String.ext
        show ((basePath ++ "?") ++ ampConcat (q :: qs)).data.dropLast = _
        rw [String.data_append, List.dropLast_append]
        simp only [List.isEmpty_iff, if_neg (ampConcat_data_ne_nil q qs),
          ampConcat_dropLast qs q]
        simp [String.data_append]

/-- Witness for C3 at the examples given by the spec. -/
theorem appendParams_characterization_witness :
    _add_optional_params "base/" [("page", some "2"), ("limit", some "100")] =
      "base/?page=2&limit=100" ∧
    _add_optional_params "base/" ([] : List (String × Option String)) = "base/" ∧
    _add_optional_params "base/" [("page", none), ("limit", some "5")] = "base/?limit=5" := by
  refine ⟨?_, ?_, ?_⟩ <;> decide

/-! ## Claim C8 -/

/-- Claim C8: for record type txt (valid bounds), get_dns_seeder returns
exactly the subsequence, in order, of the decoded TXT string segments that
contain the onion marker; segments without the marker are dropped without any
error being raised. -/
theorem resolveSeeds_txt_filters_onion
    (resolveAddr : DnsQuery → Except String (List String))
    (recs : List TxtRecord) (pre : Option String) (t l : Int)
    (ht : 1 ≤ t) (hl : 1 ≤ l) :
    (get_dns_seeder resolveAddr (fun _ => .ok recs) "txt" pre t l).1 =
      .ok (((recs.map TxtRecord.strings).flatten).filter hasOnionMarker) := by
  simp only [get_dns_seeder]
  rw [if_neg (by decide), if_pos (by decide), if_neg (by omega : ¬ t < 1),
    if_neg (by omega : ¬ l < 1)]
  simp [onionAddresses_eq_filter]

/-- Witness for C8 at the example of the spec: the raw TXT segments plain and
abcd1234.onion yield exactly the onion segment. -/
theorem resolveSeeds_txt_filters_onion_witness :
    (1 : Int) ≤ 10 ∧
    (get_dns_seeder (fun _ => .ok []) (fun _ => .ok [⟨["plain", "abcd1234.onion"]⟩])
        "txt" none 10 10).1 =
      .ok ((([⟨["plain", "abcd1234.onion"]⟩] : List TxtRecord).map
        TxtRecord.strings).flatten.filter hasOnionMarker) ∧
    (get_dns_seeder (fun _ => .ok []) (fun _ => .ok [⟨["plain", "abcd1234.onion"]⟩])
        "txt" none 10 10).1 = .ok ["abcd1234.onion"] :=
  ⟨by decide,
   resolveSeeds_txt_filters_onion (fun _ => .ok []) [⟨["plain", "abcd1234.onion"]⟩]
     none 10 10 (by decide) (by decide),
   by decide⟩

/-! ## Claim C9 -/

/-- Claim C9: get_dns_seeder raises ValueError for every record type that is
not case-insensitively one of a, aaaa, txt; when the record type lowers to
txt it additionally raises ValueError whenever the timeout bound or the
lifetime bound is below one; in all these cases no DNS query is issued and
the error is the ValueError itself, not the RuntimeError produced by the
DNS-exception wrapping.  The last two conjuncts close the statement at the
concrete instances txt 0 10 and xyz 10 10 named by the spec. -/
theorem validateSeedQuery_rejects
    (resolveAddr : DnsQuery → Except String (List String))
    (resolveTxt : DnsQuery → Except String (List TxtRecord))
    (pre : Option String) (record : String) (t l : Int) :
    (pyLower record ∉ (["a", "aaaa", "txt"] : List String) →
      get_dns_seeder resolveAddr resolveTxt record pre t l =
        (.error (.valueError "Record must be one of a, aaaa, txt."), [])) ∧
    (pyLower record = "txt" → t < 1 →
      get_dns_seeder resolveAddr resolveTxt record pre t l =
        (.error (.valueError "Resolver timeout must be at least 1 second."), [])) ∧
    (pyLower record = "txt" → ¬ t < 1 → l < 1 →
      get_dns_seeder resolveAddr resolveTxt record pre t l =
        (.error (.valueError "Resolver lifetime must be at least 1 second."), [])) ∧
    (get_dns_seeder resolveAddr resolveTxt "txt" pre 0 10 =
      (.error (.valueError "Resolver timeout must be at least 1 second."), [])) ∧
    (get_dns_seeder resolveAddr resolveTxt "xyz" pre 10 10 =
      (.error (.valueError "Record must be one of a, aaaa, txt."), [])) := by
  refine ⟨?_, ?_, ?_, ?_, ?_⟩
  · intro h
    simp only [get_dns_seeder]
    rw [if_pos h]
  · intro hrec ht
    simp only [get_dns_seeder]
    rw [hrec, if_neg (by decide), if_pos rfl, if_pos ht]
  · intro hrec ht hl
    simp only [get_dns_seeder]
    rw [hrec, if_neg (by decide), if_pos rfl, if_neg ht, if_pos hl]
  · simp only [get_dns_seeder]
    rw [if_neg (by decide), if_pos (by decide), if_pos (by decide)]
  · simp only [get_dns_seeder]
    rw [if_pos (by decide)]

/-! ## Claim C4 -/

/-- Claim C4 (code evaluation at the failing input): with record type a and
SeedQuery bounds 3 and 4, get_dns_seeder issues the A query with the resolver
timeout and lifetime left at the dns library defaults — the query values are
not applied.  The second conjunct shows the contrast: the same bounds are
applied for a txt query, because the assignment to resolver.timeout and
resolver.lifetime happens only inside the TXT branch. -/
theorem seedResolver_bounds_only_txt :
    (get_dns_seeder (fun _ => .ok []) (fun _ => .ok []) "a" none 3 4).2 =
      [⟨"seed.bitnodes.io", "A", none, none⟩] ∧
    (get_dns_seeder (fun _ => .ok []) (fun _ => .ok []) "txt" none 3 4).2 =
      [⟨"seed.bitnodes.io", "TXT", some 3, some 4⟩] := by
  constructor
  · decide
  · decide

/-! ## Claim C2 -/

/-- Claim C2 (code evaluation at the failing input): even on an instance
configured with both the public key and a private key source, get_snapshots
and get_node_status issue their GET request with no authentication headers
attached — no endpoint method ever invokes _generate_auth_headers, so every
request goes out unauthenticated. -/
theorem endpoints_never_attach_auth :
    ((get_snapshots ⟨some "PUBKEY", some "PRIVKEY"⟩ (fun _ => ⟨200, "BODY"⟩)
        (some 1) (some 10)).2.map GetRequest.authHeaders = [none]) ∧
    ((get_node_status ⟨some "PUBKEY", some "PRIVKEY"⟩ (fun _ => ⟨200, "BODY"⟩)
        "1.2.3.4" 8333).2.map GetRequest.authHeaders = [none]) := by
  constructor
  · decide
  · decide

/-! ## Claim C1 -/

/-- Claim C1 counterexample: get_snapshots hands back the decoded JSON body
of a status-500 response instead of raising (the source never calls
raise_for_status there), and get_node_status hands back the body of a
status-304 response, because raise_for_status raises only for statuses in
400..599, not for every non-2xx status. -/
theorem nonOk_response_counterexample :
    (get_snapshots ⟨none, none⟩ (fun _ => ⟨500, "ERRBODY"⟩) none none).1 =
      .ok "ERRBODY" ∧
    (get_snapshots ⟨none, none⟩ (fun _ => ⟨500, "ERRBODY"⟩) none none).1 ≠
      .error (.httpError 500) ∧
    (get_node_status ⟨none, none⟩ (fun _ => ⟨304, "REDIR"⟩) "1.2.3.4" 8333).1 =
      .ok "REDIR" := by
  refine ⟨?_, ?_, ?_⟩ <;> decide

/-- Claim C1 (amended): on validated input, every endpoint operation other
than get_snapshots raises HTTPError carrying the status exactly when the
response status lies in 400..599 and returns the decoded body otherwise,
while get_snapshots returns the decoded body for every status and never
raises HTTPError. -/
theorem http_error_discipline (st : BitnodesState) (resp : HttpResponse)
    (page limit : Option Int) (address : String) (port : Int)
    (timestamp : String) (field : Option String) (q : Option (List String))
    (ih : String)
    (hp : _validate_pagination page limit = .ok ())
    (ha : _validate_address_port address port = .ok ())
    (hf : fieldInvalid field = false)
    (hts : ¬ (timestamp ≠ "latest" ∧ pyIsDigit timestamp = false))
    (hh : ih ≠ "") :
    (get_snapshots st (fun _ => resp) page limit).1 = .ok resp.body ∧
    (get_nodes_list st (fun _ => resp) timestamp field).1 = expectedHttpResult resp ∧
    (get_address_list st (fun _ => resp) page limit q).1 = expectedHttpResult resp ∧
    (get_node_status st (fun _ => resp) address port).1 = expectedHttpResult resp ∧
    (get_node_latency st (fun _ => resp) address port).1 = expectedHttpResult resp ∧
    (get_leaderboard st (fun _ => resp) page limit).1 = expectedHttpResult resp ∧
    (get_node_ranking st (fun _ => resp) address port).1 = expectedHttpResult resp ∧
    (get_data_propagation_list st (fun _ => resp) page limit).1 = expectedHttpResult resp ∧
    (get_data_propagation st (fun _ => resp) ih).1 = expectedHttpResult resp := by
  by_cases hst : 400 ≤ resp.status ∧ resp.status < 600 <;>
    refine ⟨?_, ?_, ?_, ?_, ?_, ?_, ?_, ?_, ?_⟩ <;>
      simp [get_snapshots, get_nodes_list, get_address_list, get_node_status,
        get_node_latency, get_leaderboard, get_node_ranking,
        get_data_propagation_list, get_data_propagation, hp, ha, hf, hts, hh,
        raise_for_status, expectedHttpResult, hst]

/-- Witness for the amended C1 at a concrete client, a status-500 response
and valid inputs. -/
theorem http_error_discipline_witness :
    _validate_pagination none none = .ok () ∧
    _validate_address_port "1.2.3.4" 8333 = .ok () ∧
    fieldInvalid none = false ∧
    ¬ (("latest" : String) ≠ "latest" ∧ pyIsDigit "latest" = false) ∧
    ("a1" : String) ≠ "" ∧
    ((get_snapshots ⟨none, none⟩ (fun _ => ⟨500, "B"⟩) none none).1 = .ok "B" ∧
     (get_nodes_list ⟨none, none⟩ (fun _ => ⟨500, "B"⟩) "latest" none).1 =
       expectedHttpResult ⟨500, "B"⟩ ∧
     (get_address_list ⟨none, none⟩ (fun _ => ⟨500, "B"⟩) none none none).1 =
       expectedHttpResult ⟨500, "B"⟩ ∧
     (get_node_status ⟨none, none⟩ (fun _ => ⟨500, "B"⟩) "1.2.3.4" 8333).1 =
       expectedHttpResult ⟨500, "B"⟩ ∧
     (get_node_latency ⟨none, none⟩ (fun _ => ⟨500, "B"⟩) "1.2.3.4" 8333).1 =
       expectedHttpResult ⟨500, "B"⟩ ∧
     (get_leaderboard ⟨none, none⟩ (fun _ => ⟨500, "B"⟩) none none).1 =
       expectedHttpResult ⟨500, "B"⟩ ∧
     (get_node_ranking ⟨none, none⟩ (fun _ => ⟨500, "B"⟩) "1.2.3.4" 8333).1 =
       expectedHttpResult ⟨500, "B"⟩ ∧
     (get_data_propagation_list ⟨none, none⟩ (fun _ => ⟨500, "B"⟩) none none).1 =
       expectedHttpResult ⟨500, "B"⟩ ∧
     (get_data_propagation ⟨none, none⟩ (fun _ => ⟨500, "B"⟩) "a1").1 =
       expectedHttpResult ⟨500, "B"⟩) :=
  ⟨rfl, by decide, rfl, by decide, by decide,
   http_error_discipline ⟨none, none⟩ ⟨500, "B"⟩ none none "1.2.3.4" 8333 "latest"
     none none "a1" rfl (by decide) rfl (by decide) (by decide)⟩

/-! ## Claim C5 -/

/-- Claim C5: when the validator of an endpoint operation rejects the input,
the operation returns exactly that ValueError and issues no HTTP request and
no DNS query — the trace of transport invocations is empty. -/
theorem invalid_input_no_network (st : BitnodesState) (http : GetRequest → HttpResponse)
    (resolveAddr : DnsQuery → Except String (List String))
    (resolveTxt : DnsQuery → Except String (List TxtRecord))
    (page limit : Option Int) (address : String) (port : Int)
    (q : Option (List String)) (f : String) (record : String) (pre : Option String)
    (t l : Int) (e1 e2 : PyError)
    (hp : _validate_pagination page limit = .error e1)
    (ha : _validate_address_port address port = .error e2)
    (hf : fieldInvalid (some f) = true)
    (hrec : pyLower record ∉ (["a", "aaaa", "txt"] : List String)) :
    get_snapshots st http page limit = (.error e1, []) ∧
    get_nodes_list st http "latest" (some f) =
      (.error (.valueError "Field must be either coordinates or user_agents."), []) ∧
    get_address_list st http page limit q = (.error e1, []) ∧
    get_node_status st http address port = (.error e2, []) ∧
    get_node_latency st http address port = (.error e2, []) ∧
    get_leaderboard st http page limit = (.error e1, []) ∧
    get_node_ranking st http address port = (.error e2, []) ∧
    get_data_propagation_list st http page limit = (.error e1, []) ∧
    get_data_propagation st http "" =
      (.error (.valueError "Inventory hash must be a non-empty string."), []) ∧
    get_dns_seeder resolveAddr resolveTxt record pre t l =
      (.error (.valueError "Record must be one of a, aaaa, txt."), []) := by
  refine ⟨?_, ?_, ?_, ?_, ?_, ?_, ?_, ?_, ?_, ?_⟩ <;>
    simp [get_snapshots, get_nodes_list, get_address_list, get_node_status,
      get_node_latency, get_leaderboard, get_node_ranking,
      get_data_propagation_list, get_data_propagation, get_dns_seeder,
      hp, ha, hf, hrec]

/-- Witness for C5: empty address (the end-to-end example of the spec),
limit zero, an invalid field, and an invalid DNS record type each produce the
ValueError with an empty transport trace. -/
theorem invalid_input_no_network_witness :
    _validate_pagination none (some 0) =
      .error (.valueError "Limit must be an integer between 1 and 100.") ∧
    _validate_address_port "" 8333 =
      .error (.valueError "Address must be a non-empty string.") ∧
    fieldInvalid (some "bogus") = true ∧
    pyLower "xyz" ∉ (["a", "aaaa", "txt"] : List String) ∧
    (get_snapshots ⟨none, none⟩ (fun _ => ⟨200, "B"⟩) none (some 0) =
      (.error (.valueError "Limit must be an integer between 1 and 100."), []) ∧
     get_nodes_list ⟨none, none⟩ (fun _ => ⟨200, "B"⟩) "latest" (some "bogus") =
      (.error (.valueError "Field must be either coordinates or user_agents."), []) ∧
     get_address_list ⟨none, none⟩ (fun _ => ⟨200, "B"⟩) none (some 0) none =
      (.error (.valueError "Limit must be an integer between 1 and 100."), []) ∧
     get_node_status ⟨none, none⟩ (fun _ => ⟨200, "B"⟩) "" 8333 =
      (.error (.valueError "Address must be a non-empty string."), []) ∧
     get_node_latency ⟨none, none⟩ (fun _ => ⟨200, "B"⟩) "" 8333 =
      (.error (.valueError "Address must be a non-empty string."), []) ∧
     get_leaderboard ⟨none, none⟩ (fun _ => ⟨200, "B"⟩) none (some 0) =
      (.error (.valueError "Limit must be an integer between 1 and 100."), []) ∧
     get_node_ranking ⟨none, none⟩ (fun _ => ⟨200, "B"⟩) "" 8333 =
      (.error (.valueError "Address must be a non-empty string."), []) ∧
     get_data_propagation_list ⟨none, none⟩ (fun _ => ⟨200, "B"⟩) none (some 0) =
      (.error (.valueError "Limit must be an integer between 1 and 100."), []) ∧
     get_data_propagation ⟨none, none⟩ (fun _ => ⟨200, "B"⟩) "" =
      (.error (.valueError "Inventory hash must be a non-empty string."), []) ∧
     get_dns_seeder (fun _ => .ok []) (fun _ => .ok ([] : List TxtRecord)) "xyz" none 10 10 =
      (.error (.valueError "Record must be one of a, aaaa, txt."), [])) :=
  ⟨by decide, by decide, by decide, by decide,
   invalid_input_no_network ⟨none, none⟩ (fun _ => ⟨200, "B"⟩) (fun _ => .ok [])
     (fun _ => .ok ([] : List TxtRecord)) none (some 0) "" 8333 none "bogus" "xyz"
     none 10 10 _ _ (by decide) (by decide) (by decide) (by decide)⟩

/-! ## Claim C6 -/

/-- Claim C6 counterexample: two signing calls in immediate succession can
read the same microsecond clock value (the float clock resolution is coarser
than a microsecond and the code keeps no state); both calls then produce the
identical nonce 1000, so the later nonce is not strictly greater than the
earlier one. -/
theorem nonce_not_strictly_increasing_counterexample :
    (_generate_auth_headers "pub" "priv" "uri" 1000).nonce = "1000" ∧
    (_generate_auth_headers "pub" "priv" "uri" 1000).nonce =
      (_generate_auth_headers "pub" "priv" "uri" 1000).nonce ∧
    ¬ decimalValue ((_generate_auth_headers "pub" "priv" "uri" 1000).nonce) <
        decimalValue ((_generate_auth_headers "pub" "priv" "uri" 1000).nonce) :=
  ⟨rfl, rfl, Nat.lt_irrefl _⟩

/-- Claim C6 (amended): the nonce is the microsecond clock reading rendered
as a decimal string, so across two calls whose clock readings do not decrease
the denoted nonce values do not decrease, and they strictly increase exactly
when the clock advanced between the calls; the code maintains no state that
would force a strict increase for calls within the same microsecond or under
a backward-stepping wall clock. -/
theorem nonce_monotone_with_clock (p k u : String) (t1 t2 : Nat) (h : t1 ≤ t2) :
    ∃ n1 n2 : Nat,
      (_generate_auth_headers p k u t1).nonce = toString n1 ∧
      (_generate_auth_headers p k u t2).nonce = toString n2 ∧
      n1 ≤ n2 ∧ (t1 < t2 → n1 < n2) :=
  ⟨t1, t2, rfl, rfl, h, fun hlt => hlt⟩

/-- Witness for the amended C6 at clock readings 3 and 5. -/
theorem nonce_monotone_with_clock_witness :
    (3 : Nat) ≤ 5 ∧
    ∃ n1 n2 : Nat,
      (_generate_auth_headers "pub" "priv" "uri" 3).nonce = toString n1 ∧
      (_generate_auth_headers "pub" "priv" "uri" 5).nonce = toString n2 ∧
      n1 ≤ n2 ∧ ((3 : Nat) < 5 → n1 < n2) :=
  ⟨by decide, nonce_monotone_with_clock "pub" "priv" "uri" 3 5 (by decide)⟩

/-! ## Claim C7 -/

/-- Claim C7: the signer output carries pubkey equal to the given public key
and a signature equal to the string HMAC_SHA256: followed by the lowercase
hex encoding of HMAC-SHA256 keyed with the private-key bytes over the UTF-8
bytes of publicKey, colon, nonce, colon, uri, where the nonce is the decimal
clock string; _generate_auth_headers is a pure function of these inputs, so
two calls with identical public key, private key, uri and nonce produce
identical signatures. -/
theorem authSigner_signature_formula (publicKey privateKey uri : String)
    (clock_us : Nat) :
    (_generate_auth_headers publicKey privateKey uri clock_us).pubkey = publicKey ∧
    (_generate_auth_headers publicKey privateKey uri clock_us).nonce = toString clock_us ∧
    (_generate_auth_headers publicKey privateKey uri clock_us).sig =
      "HMAC_SHA256:" ++ hexOfBytes (hmacSha256 (utf8Bytes privateKey)
        (utf8Bytes (publicKey ++ ":" ++ toString clock_us ++ ":" ++ uri))) :=
  ⟨rfl, rfl, rfl⟩

/-! ## Claim C10 -/

/-- Claim C10: set_public_api_key stores any non-empty string, returns True,
and a subsequent get_public_api_key returns exactly that string; for an
empty-string or non-string argument it raises ValueError and the stored key
is unchanged, because the raise precedes the assignment. -/
theorem setPublicApiKey_roundtrip (st : BitnodesState) (s : String) (k : PyVal)
    (hs : s ≠ "") (hk : pyFalsy k = true ∨ pyIsStr k = false) :
    set_public_api_key st (.vStr s) =
      (.ok true, { st with public_api_key := some s }) ∧
    get_public_api_key (set_public_api_key st (.vStr s)).2 = some s ∧
    (set_public_api_key st k).1 =
      .error (.valueError "Public API key must be a non-empty string.") ∧
    (set_public_api_key st k).2 = st ∧
    get_public_api_key (set_public_api_key st k).2 = get_public_api_key st := by
  have hfalse : pyFalsy (.vStr s) = false := by
    simp only [pyFalsy]
    exact (Bool.eq_false_iff).mpr fun hemp => hs ((String.isEmpty_iff s).mp hemp)
  have hcond : (pyFalsy (.vStr s) || !pyIsStr (.vStr s)) = false := by
    simp [hfalse, pyIsStr]
  have hcond2 : (pyFalsy k || !pyIsStr k) = true := by
    rcases hk with h | h <;> simp [h]
  refine ⟨?_, ?_, ?_, ?_, ?_⟩ <;>
    simp [set_public_api_key, get_public_api_key, hcond, hcond2, pyStrOf]

/-- Witness for C10: storing KEY succeeds and reads back; the int argument 5
is rejected and the stored key stays unset. -/
theorem setPublicApiKey_roundtrip_witness :
    ("KEY" : String) ≠ "" ∧
    (pyFalsy (.vInt 5) = true ∨ pyIsStr (.vInt 5) = false) ∧
    (set_public_api_key ⟨none, none⟩ (.vStr "KEY") =
      (.ok true, { public_api_key := some "KEY", private_key_source := none }) ∧
     get_public_api_key (set_public_api_key ⟨none, none⟩ (.vStr "KEY")).2 = some "KEY" ∧
     (set_public_api_key ⟨none, none⟩ (.vInt 5)).1 =
       .error (.valueError "Public API key must be a non-empty string.") ∧
     (set_public_api_key ⟨none, none⟩ (.vInt 5)).2 = ⟨none, none⟩ ∧
     get_public_api_key (set_public_api_key ⟨none, none⟩ (.vInt 5)).2 =
       get_public_api_key ⟨none, none⟩) :=
  ⟨by decide, by decide,
   setPublicApiKey_roundtrip ⟨none, none⟩ "KEY" (.vInt 5) (by decide) (by decide)⟩
